import Mathlib

/-!
Shallow embedding of `src/backend/main.py` (db-trigger-ws-sse): a FastAPI
backend that streams a single Postgres counter to WebSocket and SSE clients.
Stateful Python is modelled by explicit state passing; database behaviour is
an explicit environment parameter; exceptions become `Except`.
-/

set_option maxHeartbeats 1000000

/-- Exceptions that can surface from the database layer or from
`_increment_and_get_count` itself (main.py lines 131-155). -/
inductive Err where
  /-- an exception raised by the database driver (connection error, lock
  contention, serialization conflict, ...) -/
  | db (msg : String)
  /-- `RuntimeError("No counter row found to increment")`, raised by the code
  itself when the UPDATE returns no row (main.py line 148) -/
  | noRow
  /-- `RuntimeError("Database engine not initialized")` (main.py line 134) -/
  | notReady
  /-- `RuntimeError("Failed to increment count after retries")`
  (main.py line 155); reachable only when `retries = 0` -/
  | exhausted
deriving DecidableEq, Repr

/-- Result of one call to `_increment_and_get_count`: the value returned or
exception raised, how many attempts were executed, and the list of sleep
delays (in milliseconds) performed between attempts. -/
structure IncOutcome where
  result : Except Err Nat
  attemptsMade : Nat
  sleeps : List Nat
deriving Repr

instance : DecidableEq (Except Err Nat) := fun a b =>
  match a, b with
  | .ok x, .ok y => decidable_of_iff (x = y) (by simp)
  | .error x, .error y => decidable_of_iff (x = y) (by simp)
  | .ok _, .error _ => isFalse (by simp)
  | .error _, .ok _ => isFalse (by simp)

instance : DecidableEq IncOutcome := fun a b =>
  decidable_of_iff (a.result = b.result ∧ a.attemptsMade = b.attemptsMade ∧
    a.sleeps = b.sleeps) (by cases a; cases b; simp)

/-- One attempt body of `_increment_and_get_count` (main.py lines 137-148):
the UPDATE either raises, returns a row with the new value, or returns no
row, in which case the code raises `RuntimeError("No counter row found to
increment")`. -/
def attemptResult (exec : Except Err (Option Nat)) : Except Err Nat :=
  match exec with
  | .error e => .error e
  | .ok (some v) => .ok v
  | .ok none => .error .noRow

/-- The retry loop `for attempt in range(retries)` of
`_increment_and_get_count` (main.py lines 136-153), as structural recursion
on the number of remaining loop iterations. `execs i` is what the database
does on attempt `i`. On an exception: if `attempt < retries - 1`, sleep
50 ms and continue; otherwise re-raise (main.py lines 149-153). -/
def incrementFrom (execs : Nat → Except Err (Option Nat)) (retries : Nat) :
    Nat → Nat → List Nat → IncOutcome
  | 0, attempt, sleeps => ⟨.error .exhausted, attempt, sleeps⟩
  | remaining + 1, attempt, sleeps =>
    match attemptResult (execs attempt) with
    | .ok v => ⟨.ok v, attempt + 1, sleeps⟩
    | .error e =>
      if attempt < retries - 1 then
        incrementFrom execs retries remaining (attempt + 1) (sleeps ++ [50])
      else ⟨.error e, attempt + 1, sleeps⟩

/-- `_increment_and_get_count(retries=3)` (main.py lines 131-155). `ready`
models `ASYNC_SESSION is not None`. -/
def incrementAndGetCount (ready : Bool) (execs : Nat → Except Err (Option Nat))
    (retries : Nat := 3) : IncOutcome :=
  if ready then incrementFrom execs retries retries 0 []
  else ⟨.error .notReady, 0, []⟩

/-! ## Client registry

`CLIENTS` (main.py line 21) is a Python `set` of sinks (WebSockets and SSE
queues), guarded by `CLIENTS_LOCK`. Sinks are modelled by their identity (a
`Nat`); the set is modelled as a duplicate-free list. -/

/-- The `CLIENTS` set, modelled as a list kept duplicate-free by `add`. -/
abbrev Registry := List Nat

/-- Python `set.add`: inserting an element already present changes nothing. -/
def Registry.add (r : Registry) (s : Nat) : Registry :=
  if s ∈ r then r else r ++ [s]

/-- Python `set.discard` (main.py lines 109, 185, 190, 226, 229): remove if
present, no error otherwise. -/
def Registry.discard (r : Registry) (s : Nat) : Registry :=
  r.erase s

/-- The per-client loop of `_broadcast_count` (main.py lines 101-109) over
the snapshot taken at line 100. `fails c` says whether delivery to sink `c`
raises (`send_text` / `put` raising: client gone, connection closed). On an
exception the sink is discarded from `CLIENTS` and the loop continues with
the next sink. Returns the final `CLIENTS` and the list of `(sink, count)`
deliveries that succeeded, in delivery order. -/
def broadcastGo (fails : Nat → Bool) (count : Int) :
    List Nat → Registry → Registry × List (Nat × Int)
  | [], clients => (clients, [])
  | c :: rest, clients =>
    if fails c then
      broadcastGo fails count rest (Registry.discard clients c)
    else
      let r := broadcastGo fails count rest clients
      (r.1, (c, count) :: r.2)

/-- `_broadcast_count(count)` (main.py lines 97-109): snapshot
`clients = list(CLIENTS)` under the lock, then attempt delivery to every
sink of the snapshot. -/
def broadcastCount (fails : Nat → Bool) (clients : Registry) (count : Int) :
    Registry × List (Nat × Int) :=
  broadcastGo fails count clients clients

/-! ## Notification payload handling

`_handle_notify` (main.py lines 158-167) parses the NOTIFY payload with
`json.loads`, checks `isinstance(data, dict) and "count" in data`, converts
the field with `int(...)` and broadcasts. Any exception is caught and only
logged. JSON values are modelled by an inductive type; the behaviour of
`json.loads` on a given string is an environment parameter `loads`. -/

/-- A parsed JSON value (the possible results of `json.loads`). -/
inductive Json where
  | null
  | bool (b : Bool)
  | num (n : Int)
  | str (s : String)
  | arr (xs : List Json)
  | obj (fields : List (String × Json))

/-- The test `isinstance(data, dict) and "count" in data` followed by the
lookup `data["count"]` (main.py lines 163-164): `some` exactly when the
value is an object with a `count` field. -/
def countField : Json → Option Json
  | .obj fs => fs.lookup "count"
  | _ => none

/-- Python `int(x)` on a JSON value (main.py line 164): exact on integers,
`True`/`False` become 1/0, numeric strings parse, everything else raises.
(Python also strips whitespace and accepts underscores in strings; that
refinement is irrelevant here since the claims only exercise the integer
branch.) -/
def pyInt : Json → Except Unit Int
  | .num n => .ok n
  | .bool b => .ok (if b then 1 else 0)
  | .str s =>
    match s.toInt? with
    | some n => .ok n
    | none => .error ()
  | _ => .error ()

/-- `_handle_notify(payload)` (main.py lines 158-167). `loads` models
`json.loads` (result or raised exception); `fails`/`clients` are passed to
the broadcast. Returns the new `CLIENTS`, the deliveries made, and whether
`logger.exception` fired (an exception was caught at line 166). An empty or
`None` payload is falsy, so nothing at all happens (line 161). -/
def handleNotify (loads : String → Except Unit Json) (fails : Nat → Bool)
    (clients : Registry) (payload : Option String) :
    Registry × List (Nat × Int) × Bool :=
  match payload with
  | none => (clients, [], false)
  | some s =>
    if s = "" then (clients, [], false)
    else
      match loads s with
      | .error _ => (clients, [], true)
      | .ok data =>
        match countField data with
        | none => (clients, [], false)
        | some field =>
          match pyInt field with
          | .error _ => (clients, [], true)
          | .ok n =>
            let r := broadcastCount fails clients n
            (r.1, r.2, false)

/-- Sequential processing of several notification payloads by
`_handle_notify`, threading the `CLIENTS` state and concatenating the
deliveries. -/
def handleMany (loads : String → Except Unit Json) (fails : Nat → Bool)
    (clients : Registry) : List (Option String) → Registry × List (Nat × Int)
  | [] => (clients, [])
  | p :: ps =>
    let r := handleNotify loads fails clients p
    let rest := handleMany loads fails r.1 ps
    (rest.1, r.2.1 ++ rest.2)

/-! ## Reading the counter

`_get_current_count` (main.py lines 112-128) runs
`SELECT count FROM counters LIMIT 1`; it returns `None` when the session
factory is missing, when no row comes back, and — crucially — when the
query raises (the bare `except Exception: return None` at lines 127-128).
The behaviour of the database on the SELECT is the environment. -/

/-- What the database does on the SELECT of `_get_current_count`. -/
inductive ReadEnv where
  /-- the query raises (store unavailable, table missing, ...) -/
  | raises
  /-- the query succeeds but returns no row -/
  | noRow
  /-- the query returns a row with value `v` -/
  | row (v : Int)
deriving DecidableEq, Repr

/-- `_get_current_count()` (main.py lines 112-128). `sessionUp` models
`ASYNC_SESSION is not None`. -/
def getCurrentCount (sessionUp : Bool) (env : ReadEnv) : Option Int :=
  if sessionUp then
    match env with
    | .row v => some v
    | .noRow => none
    | .raises => none
  else none

/-- The route handler of `GET /api/v1/count` (main.py lines 233-244):
HTTP 500 when `ENGINE is None or ASYNC_SESSION is None`, otherwise 404 when
`_get_current_count()` returned `None`, otherwise 200 with the count. -/
def getCountEndpoint (engineUp sessionUp : Bool) (env : ReadEnv) :
    Nat × Option Int :=
  if engineUp && sessionUp then
    match getCurrentCount sessionUp env with
    | some v => (200, some v)
    | none => (404, none)
  else (500, none)

/-! ## Sequential increments over a store state

For the increment-correctness property, the store is the counter row:
`none` when the `counters` table is empty, `some v` when the row holds `v`.
`UPDATE counters SET count = count + 1 RETURNING count` (main.py line 140)
increments the row if present and returns it; with no row it succeeds but
returns no row, leaving the state unchanged. -/

/-- `_increment_and_get_count` run against an actual store state: with a row
present every attempt's UPDATE succeeds, so the first attempt returns; with
no row every attempt sees an empty result, so the loop raises after the
retry bound. Returns the new store state and the call's outcome. -/
def incOnDb (retries : Nat) (db : Option Nat) : Option Nat × IncOutcome :=
  match db with
  | some v => (some (v + 1), incrementAndGetCount true (fun _ => .ok (some (v + 1))) retries)
  | none => (none, incrementAndGetCount true (fun _ => .ok none) retries)

/-- An operation hitting the store: a read (`_get_current_count`) or an
increment (`_increment_and_get_count`, default `retries = 3`). -/
inductive Op where
  | read
  | inc
deriving DecidableEq, BEq, Repr

/-- Effect of one operation on the store state: the SELECT of a read never
mutates; an increment applies `incOnDb` with the default 3 retries. -/
def runOp (db : Option Nat) : Op → Option Nat
  | .read => db
  | .inc => (incOnDb 3 db).1

/-- Running a sequence of reads and increments against the store. -/
def runOps (db : Option Nat) (ops : List Op) : Option Nat :=
  ops.foldl runOp db

/-- Number of increment operations in a sequence. -/
def countIncs : List Op → Nat
  | [] => 0
  | .inc :: rest => countIncs rest + 1
  | .read :: rest => countIncs rest

/-! ## Notification handler tasks and their interleaving

`_pg_notify_handler` (main.py lines 57-62) runs
`asyncio.create_task(_handle_notify(payload))`: one task per notification,
with no ordering between tasks. Inside `_broadcast_count`, every
`await client.send_text(...)` / `await client.put(...)` is a suspension
point, so the event loop may interleave the per-client delivery steps of
two such tasks in any order. A task is modelled by the count it broadcasts
and the clients of its snapshot it has not delivered to yet; a schedule is
the list of task indices chosen at each suspension point. -/

/-- One spawned `_handle_notify` task mid-broadcast: the decoded count and
the remaining clients of its registry snapshot. -/
structure NotifyTask where
  count : Int
  pending : List Nat
deriving DecidableEq, Repr

/-- `asyncio.create_task(_handle_notify(payload))` once per notification
(main.py line 59): each arriving count gets its own task, all broadcasting
over the registry snapshot. -/
def spawnTasks (snapshot : List Nat) (counts : List Int) : List NotifyTask :=
  counts.map (fun c => ⟨c, snapshot⟩)

/-- One scheduler choice: task `i` performs its next delivery step (one
`await send`), appending the delivery to the global log. Choosing a
finished or non-existent task is a no-op. -/
def schedStep (tasks : List NotifyTask) (log : List (Nat × Int)) (i : Nat) :
    List NotifyTask × List (Nat × Int) :=
  match tasks.get? i with
  | none => (tasks, log)
  | some t =>
    match t.pending with
    | [] => (tasks, log)
    | c :: rest => (tasks.set i ⟨t.count, rest⟩, log ++ [(c, t.count)])

/-- Running the spawned tasks under a schedule, returning the global
delivery log. -/
def runSchedule (tasks : List NotifyTask) (sched : List Nat) :
    List (Nat × Int) :=
  (sched.foldl (fun st i => schedStep st.1 st.2 i) (tasks, [])).2

/-- The values sink `s` receives, in the order it receives them. -/
def receivedValues (log : List (Nat × Int)) (s : Nat) : List Int :=
  log.filterMap (fun p => if p.1 = s then some p.2 else none)

/-- The serialized schedule for two tasks with `m` delivery steps each: task
0 runs to completion before task 1 starts. -/
def serialSchedule (m : Nat) : List Nat :=
  List.replicate m 0 ++ List.replicate m 1

/-! ## Bridge lifecycle

`lifespan` (main.py lines 39-85) connects the asyncpg listener exactly once
at startup, inside `try/except` (a failure is logged and the app continues,
lines 65-66). No code anywhere in main.py reacts to a later loss of that
connection: there is no reconnect loop, no connection-lost callback. Reads
and increments use the separate SQLAlchemy engine (`ASYNC_SESSION`). -/

/-- Runtime state of the process after startup. `reconnectAttempts` counts
reconnection attempts made for the listener connection after startup. -/
structure AppState where
  listenerConnected : Bool
  reconnectAttempts : Nat
  processAlive : Bool
  engineUp : Bool
  sessionUp : Bool
deriving DecidableEq, Repr

/-- State after `lifespan` startup (main.py lines 40-66): engine and session
factory are created; the listener connect is attempted once, and on failure
the app continues without notifications. -/
def lifespanStartup (connectOk : Bool) : AppState :=
  { listenerConnected := connectOk
    reconnectAttempts := 0
    processAlive := true
    engineUp := true
    sessionUp := true }

/-- An event hitting the running process. -/
inductive BridgeEvent where
  /-- the dedicated listener connection drops -/
  | connLost
  /-- a NOTIFY arrives on the channel (only possible while connected) -/
  | notify (payload : Option String)
deriving Repr

/-- How the process reacts to a bridge event. main.py installs no handler
for connection loss: the connection is simply gone — no reconnection is
attempted, nothing terminates the process, and the SQLAlchemy engine and
session factory are untouched. -/
def bridgeStep (st : AppState) : BridgeEvent → AppState
  | .connLost => { st with listenerConnected := false }
  | .notify _ => st

/-! ## WebSocket connect

`websocket_endpoint` (main.py lines 205-230): `accept()`, add the socket to
`CLIENTS` under the lock, then read `_get_current_count()` and send one
`{"count": v}` text *only if* the value is not `None` (lines 213-216) —
when the read yields `None`, no initial message is sent at all. -/

/-- The observable actions of the WebSocket connect sequence, in order. -/
inductive WsAction where
  /-- `await websocket.accept()` -/
  | accept
  /-- `CLIENTS.add(websocket)` under the lock -/
  | register
  /-- `await _get_current_count()` -/
  | readSnapshot
  /-- `await websocket.send_text(json.dumps({"count": v}))` -/
  | send (v : Int)
deriving DecidableEq, Repr

/-- The action trace of `websocket_endpoint` up to entering the receive
loop, for a given database behaviour on the snapshot read. -/
def websocketTrace (env : ReadEnv) : List WsAction :=
  [.accept, .register, .readSnapshot] ++
    (match getCurrentCount true env with
     | some v => [.send v]
     | none => [])

/-- Effect of a WebSocket connect on the registry and on the initial
messages the new client is sent (main.py lines 208-216): register first,
then send the snapshot value when it is available, nothing otherwise. -/
def websocketConnect (clients : Registry) (ws : Nat) (env : ReadEnv) :
    Registry × List Int :=
  (Registry.add clients ws,
   match getCurrentCount true env with
   | some v => [v]
   | none => [])

/-- A sample `json.loads` behaviour on three concrete payloads, used to
exercise `_handle_notify` at concrete inputs: a payload parsing to an
object with a count, one parsing to an array, everything else raising. -/
def sampleLoads (s : String) : Except Unit Json :=
  if s = "good" then .ok (.obj [("count", .num 7)])
  else if s = "arr" then .ok (.arr [])
  else .error ()

/-! ## Theorems -/

/-- Helper: when every attempt of the retry loop raises, the loop runs all
remaining iterations, sleeps 50 ms between consecutive attempts, and
re-raises the exception of the final attempt. -/
theorem incrementFrom_fail_all (execs : Nat → Except Err (Option Nat))
    (errs : Nat → Err) (retries : Nat)
    (hall : ∀ i, i < retries → attemptResult (execs i) = .error (errs i)) :
    ∀ remaining attempt sleeps, remaining + attempt = retries → 1 ≤ remaining →
      incrementFrom execs retries remaining attempt sleeps =
        ⟨.error (errs (retries - 1)), retries,
          sleeps ++ List.replicate (remaining - 1) 50⟩ := by
  intro remaining
  induction remaining with
  | zero => intro attempt sleeps _ h1; omega
  | succ r ih =>
    intro attempt sleeps hsum _
    have hattempt : attempt < retries := by omega
    rw [incrementFrom, hall attempt hattempt]
    dsimp only
    cases r with
    | zero =>
      have ha : attempt = retries - 1 := by omega
      rw [if_neg (by omega)]
      simp [ha]
      omega
    | succ k =>
      have hlt : attempt < retries - 1 := by omega
      rw [if_pos hlt, ih (attempt + 1) (sleeps ++ [50]) (by omega) (by omega)]
      simp [List.append_assoc, List.replicate_succ]

/-- Helper: when every attempt before the last raises and the final allowed
attempt returns a row, the loop returns that value after the full number of
attempts. -/
theorem incrementFrom_last_ok (execs : Nat → Except Err (Option Nat))
    (errs : Nat → Err) (retries : Nat) (v : Nat)
    (hpre : ∀ i, i < retries - 1 → attemptResult (execs i) = .error (errs i))
    (hlast : attemptResult (execs (retries - 1)) = .ok v) :
    ∀ remaining attempt sleeps, remaining + attempt = retries → 1 ≤ remaining →
      incrementFrom execs retries remaining attempt sleeps =
        ⟨.ok v, retries, sleeps ++ List.replicate (remaining - 1) 50⟩ := by
  intro remaining
  induction remaining with
  | zero => intro attempt sleeps _ h1; omega
  | succ r ih =>
    intro attempt sleeps hsum _
    cases r with
    | zero =>
      have ha : attempt = retries - 1 := by omega
      rw [incrementFrom, ha, hlast]
      dsimp only
      simp
      omega
    | succ k =>
      have hlt : attempt < retries - 1 := by omega
      rw [incrementFrom, hpre attempt hlt]
      dsimp only
      rw [if_pos hlt, ih (attempt + 1) (sleeps ++ [50]) (by omega) (by omega)]
      simp [List.append_assoc, List.replicate_succ]

/-- C2: an increment whose store update fails transiently on every attempt
makes exactly the configured number of attempts (`retries`, default 3) with
a fixed 50 ms delay between consecutive attempts and surfaces the failure
(the last attempt's exception) to the caller; an increment whose update
succeeds on the last allowed attempt returns the new counter value. -/
theorem increment_retry_bound_and_last_success
    (retries : Nat) (hr : 1 ≤ retries)
    (ex1 : Nat → Except Err (Option Nat)) (e1 : Nat → Err)
    (h1 : ∀ i, i < retries → ex1 i = .error (e1 i))
    (ex2 : Nat → Except Err (Option Nat)) (e2 : Nat → Err) (v : Nat)
    (h2 : ∀ i, i < retries - 1 → ex2 i = .error (e2 i))
    (h3 : ex2 (retries - 1) = .ok (some v)) :
    incrementAndGetCount true ex1 retries =
      ⟨.error (e1 (retries - 1)), retries, List.replicate (retries - 1) 50⟩ ∧
    incrementAndGetCount true ex2 retries =
      ⟨.ok v, retries, List.replicate (retries - 1) 50⟩ := by
  constructor
  · rw [incrementAndGetCount, if_pos rfl,
      incrementFrom_fail_all ex1 e1 retries
        (fun i hi => by rw [h1 i hi]; rfl) retries 0 [] (by omega) hr]
    simp
  · rw [incrementAndGetCount, if_pos rfl,
      incrementFrom_last_ok ex2 e2 retries v
        (fun i hi => by rw [h2 i hi]; rfl) (by rw [h3]; rfl)
        retries 0 [] (by omega) hr]
    simp

/-- Witness for C2 at `retries = 3`: the all-fail run makes 3 attempts with
two 50 ms sleeps and surfaces the conflict; the succeed-on-attempt-3 run
returns the new value 7. -/
theorem increment_retry_bound_and_last_success_witness :
    incrementAndGetCount true (fun _ => .error (.db "conflict")) 3 =
      ⟨.error (.db "conflict"), 3, [50, 50]⟩ ∧
    incrementAndGetCount true
        (fun i => if i < 2 then .error (.db "conflict") else .ok (some 7)) 3 =
      ⟨.ok 7, 3, [50, 50]⟩ := by
  have h := increment_retry_bound_and_last_success 3 (by omega)
    (fun _ => .error (.db "conflict")) (fun _ => .db "conflict")
    (fun _ _ => rfl)
    (fun i => if i < 2 then .error (.db "conflict") else .ok (some 7))
    (fun _ => .db "conflict") 7
    (fun i hi => by simp at hi; simp [hi])
    (by norm_num)
  simpa using h

/-- C10: the retry loop does not distinguish transient from permanent
failures — whenever every attempt's result is an exception (including the
no-counter-row `RuntimeError`), the loop sleeps the fixed 50 ms delay
between attempts, retries until the attempt bound, and re-raises the
exception of the final attempt. -/
theorem increment_uniform_retry
    (retries : Nat) (hr : 1 ≤ retries)
    (execs : Nat → Except Err (Option Nat)) (errs : Nat → Err)
    (h : ∀ i, i < retries → attemptResult (execs i) = .error (errs i)) :
    incrementAndGetCount true execs retries =
      ⟨.error (errs (retries - 1)), retries, List.replicate (retries - 1) 50⟩ := by
  rw [incrementAndGetCount, if_pos rfl,
    incrementFrom_fail_all execs errs retries h retries 0 [] (by omega) hr]
  simp

/-- Witness for C10: with no counter row on any attempt (the permanent
failure), the default 3-attempt call still retries with two 50 ms sleeps
and surfaces the final attempt's no-row exception. -/
theorem increment_uniform_retry_witness :
    incrementAndGetCount true (fun _ => .ok none) 3 =
      ⟨.error .noRow, 3, [50, 50]⟩ := by
  have h := increment_uniform_retry 3 (by omega)
    (fun _ => .ok none) (fun _ => .noRow) (fun _ _ => rfl)
  simpa using h

/-- C8: starting from a stored value `V`, a sequence of reads and
increments leaves the counter at `V` plus the number of increments —
reads never mutate, and every increment from a present row succeeds on its
first attempt and adds exactly one. -/
theorem sequential_increments_add_count :
    (∀ (V : Nat) (ops : List Op),
      runOps (some V) ops = some (V + countIncs ops)) ∧
    (∀ v : Nat, (incOnDb 3 (some v)).2.result = .ok (v + 1)) := by
  constructor
  · intro V ops
    induction ops generalizing V with
    | nil => simp [runOps, countIncs]
    | cons op rest ih =>
      cases op with
      | read =>
        have h := ih V
        simp only [runOps, List.foldl_cons, runOp, countIncs] at h ⊢
        exact h
      | inc =>
        have h := ih (V + 1)
        simp only [runOps, List.foldl_cons, runOp, countIncs] at h ⊢
        have hdb : (incOnDb 3 (some V)).1 = some (V + 1) := rfl
        rw [hdb, h]
        congr 1
        omega
  · intro v
    rfl

/-- Helper: the broadcast loop never adds sinks to `CLIENTS`. -/
theorem broadcastGo_fst_subset (fails : Nat → Bool) (count : Int) :
    ∀ (snap : List Nat) (clients : Registry),
      (broadcastGo fails count snap clients).1 ⊆ clients := by
  intro snap
  induction snap with
  | nil => intro clients; simp [broadcastGo]
  | cons c rest ih =>
    intro clients
    rw [broadcastGo]
    by_cases hc : fails c
    · rw [if_pos hc]
      exact (ih (Registry.discard clients c)).trans (List.erase_subset c clients)
    · rw [if_neg hc]
      exact ih clients

/-- Helper: a sink of the snapshot whose delivery raises is absent from
`CLIENTS` when the pass ends. -/
theorem broadcastGo_removes_failed (fails : Nat → Bool) (count : Int) (s : Nat)
    (hf : fails s = true) :
    ∀ (snap : List Nat) (clients : Registry), clients.Nodup → s ∈ snap →
      s ∉ (broadcastGo fails count snap clients).1 := by
  intro snap
  induction snap with
  | nil => intro clients _ hmem; simp at hmem
  | cons c rest ih =>
    intro clients hnd hmem
    rw [broadcastGo]
    by_cases hcs : c = s
    · subst hcs
      rw [if_pos hf]
      intro habs
      have hsub := broadcastGo_fst_subset fails count rest (Registry.discard clients c)
      have : c ∈ Registry.discard clients c := hsub habs
      exact (List.Nodup.not_mem_erase hnd) this
    · have hrest : s ∈ rest := by
        rcases List.mem_cons.1 hmem with h | h
        · exact absurd h.symm hcs
        · exact h
      by_cases hc : fails c
      · rw [if_pos hc]
        exact ih (Registry.discard clients c) (List.Nodup.erase c hnd) hrest
      · rw [if_neg hc]
        exact ih clients hnd hrest

/-- Helper: every sink of the snapshot whose own delivery does not raise
receives the broadcast value, regardless of failures of other sinks. -/
theorem broadcastGo_delivers (fails : Nat → Bool) (count : Int) (t : Nat)
    (ht : fails t = false) :
    ∀ (snap : List Nat) (clients : Registry), t ∈ snap →
      (t, count) ∈ (broadcastGo fails count snap clients).2 := by
  intro snap
  induction snap with
  | nil => intro clients hmem; simp at hmem
  | cons c rest ih =>
    intro clients hmem
    rw [broadcastGo]
    by_cases hct : c = t
    · subst hct
      rw [if_neg (by simp [ht])]
      simp
    · have hrest : t ∈ rest := by
        rcases List.mem_cons.1 hmem with h | h
        · exact absurd h.symm hct
        · exact h
      by_cases hc : fails c
      · rw [if_pos hc]
        exact ih (Registry.discard clients c) hrest
      · rw [if_neg hc]
        simp only []
        exact List.mem_cons_of_mem _ (ih clients hrest)

/-- C3: in a broadcast pass over the registry snapshot, a sink whose
delivery raises is removed from `CLIENTS` by the end of the pass (so it is
absent for the next broadcast), while delivery is still attempted to every
other sink of the snapshot — every sink whose own delivery does not raise
receives the value. -/
theorem broadcast_fault_isolation
    (fails : Nat → Bool) (clients : Registry) (count : Int) (s : Nat)
    (hnd : clients.Nodup) (hs : s ∈ clients) (hf : fails s = true) :
    s ∉ (broadcastCount fails clients count).1 ∧
    ∀ t ∈ clients, fails t = false →
      (t, count) ∈ (broadcastCount fails clients count).2 := by
  constructor
  · exact broadcastGo_removes_failed fails count s hf clients clients hnd hs
  · intro t hmem ht
    exact broadcastGo_delivers fails count t ht clients clients hmem

/-- Witness for C3: with sinks 1, 2, 3 registered and delivery to sink 2
raising, sink 2 is gone from the registry after the pass and sink 3 (and 1)
still receive the value 5. -/
theorem broadcast_fault_isolation_witness :
    2 ∉ (broadcastCount (fun c => c == 2) [1, 2, 3] 5).1 ∧
    ((3 : Nat), (5 : Int)) ∈ (broadcastCount (fun c => c == 2) [1, 2, 3] 5).2 := by
  have h := broadcast_fault_isolation (fun c => c == 2) [1, 2, 3] 5 2
    (by decide) (by decide) (by decide)
  exact ⟨h.1, h.2 3 (by decide) (by decide)⟩

/-- C9: registry removal is idempotent and addition is duplicate-free: on a
duplicate-free registry, discarding an absent sink (in particular a second
discard of the same sink) changes nothing and is not an error, and adding
an already-present sink changes nothing, so no duplicate entry ever
appears. -/
theorem registry_discard_idempotent_add_no_dup
    (r : Registry) (s : Nat) (hnd : r.Nodup) :
    (s ∉ r → Registry.discard r s = r) ∧
    Registry.discard (Registry.discard r s) s = Registry.discard r s ∧
    (s ∈ r → Registry.add r s = r) ∧
    (Registry.add r s).Nodup := by
  refine ⟨?_, ?_, ?_, ?_⟩
  · intro h
    exact List.erase_of_not_mem h
  · exact List.erase_of_not_mem (List.Nodup.not_mem_erase hnd)
  · intro h
    simp [Registry.add, h]
  · unfold Registry.add
    by_cases h : s ∈ r
    · rw [if_pos h]
      exact hnd
    · rw [if_neg h]
      simp [List.nodup_append, hnd, h]

/-- Witness for C9 on the registry `[1, 2]` with sink 3 absent and sink re-
addition checked through `Nodup` of the result. -/
theorem registry_discard_idempotent_add_no_dup_witness :
    (3 ∉ ([1, 2] : Registry) → Registry.discard [1, 2] 3 = [1, 2]) ∧
    Registry.discard (Registry.discard [1, 2] 3) 3 = Registry.discard [1, 2] 3 ∧
    (3 ∈ ([1, 2] : Registry) → Registry.add [1, 2] 3 = [1, 2]) ∧
    (Registry.add [1, 2] 3).Nodup :=
  registry_discard_idempotent_add_no_dup [1, 2] 3 (by decide)

/-- C5: a notification payload that is empty, not parseable as JSON, or
parseable but lacking a usable `count` field (not an object, or no `count`
key) produces no broadcast, leaves the registry unchanged and raises
nothing to the caller (at most a log entry), and a subsequent well-formed
payload is processed normally and broadcast. -/
theorem malformed_notify_dropped_and_recovery
    (loads : String → Except Unit Json) (fails : Nat → Bool) (clients : Registry)
    (sBad sNoCount sGood : String)
    (hsb : sBad ≠ "") (hsn : sNoCount ≠ "") (hsg : sGood ≠ "")
    (hbad : loads sBad = .error ())
    (dn : Json) (hdn : loads sNoCount = .ok dn) (hnc : countField dn = none)
    (dg fld : Json) (n : Int)
    (hg : loads sGood = .ok dg) (hcf : countField dg = some fld)
    (hpi : pyInt fld = .ok n) :
    handleNotify loads fails clients none = (clients, [], false) ∧
    handleNotify loads fails clients (some "") = (clients, [], false) ∧
    handleNotify loads fails clients (some sBad) = (clients, [], true) ∧
    handleNotify loads fails clients (some sNoCount) = (clients, [], false) ∧
    handleMany loads fails clients [some sBad, some sGood] =
      ((broadcastCount fails clients n).1, (broadcastCount fails clients n).2) := by
  refine ⟨rfl, rfl, ?_, ?_, ?_⟩
  · rw [handleNotify, if_neg hsb, hbad]
  · rw [handleNotify, if_neg hsn, hdn]
    dsimp only
    rw [hnc]
  · rw [handleMany, handleNotify, if_neg hsb, hbad]
    dsimp only
    rw [handleMany, handleNotify, if_neg hsg, hg]
    dsimp only
    rw [hcf]
    dsimp only
    rw [hpi]
    simp [handleMany]

/-- Witness for C5 with `sampleLoads`: payload `"bad"` does not parse,
payload `"arr"` parses to a non-object, and afterwards payload `"good"`
(an object with count 7) is broadcast to both registered sinks. -/
theorem malformed_notify_dropped_and_recovery_witness :
    handleNotify sampleLoads (fun _ => false) [1, 2] (some "bad") =
      ([1, 2], [], true) ∧
    handleNotify sampleLoads (fun _ => false) [1, 2] (some "arr") =
      ([1, 2], [], false) ∧
    handleMany sampleLoads (fun _ => false) [1, 2] [some "bad", some "good"] =
      ((broadcastCount (fun _ => false) [1, 2] 7).1,
       (broadcastCount (fun _ => false) [1, 2] 7).2) := by
  have h := malformed_notify_dropped_and_recovery sampleLoads (fun _ => false)
    [1, 2] "bad" "arr" "good" (by decide) (by decide) (by decide) rfl
    (.arr []) rfl rfl (.obj [("count", .num 7)]) (.num 7) 7 rfl rfl rfl
  exact ⟨h.2.2.1, h.2.2.2.1, h.2.2.2.2⟩

/-- C4 counterexample: when the session is up but the SELECT raises (store
unavailable mid-query), `GET /api/v1/count` answers 404 — the failed query
is reported as the absence case, not as 500. -/
theorem failed_query_reported_as_absence :
    (getCountEndpoint true true ReadEnv.raises).1 = 404 ∧
    (getCountEndpoint true true ReadEnv.raises).1 ≠ 500 := by
  decide

/-- C4 amended: `GET /api/v1/count` answers 200 with the count when the
query returns a row, 500 exactly when the engine or session factory is not
up, and 404 both when no counter row exists and when the query fails —
`_get_current_count` swallows query exceptions into `None`, so a failed
query is reported as the absence case. -/
theorem count_endpoint_status_cases :
    (∀ v : Int, getCountEndpoint true true (ReadEnv.row v) = (200, some v)) ∧
    getCountEndpoint true true ReadEnv.noRow = (404, none) ∧
    getCountEndpoint true true ReadEnv.raises = (404, none) ∧
    (∀ env, getCountEndpoint false true env = (500, none)) ∧
    (∀ env b, getCountEndpoint b false env = (500, none)) := by
  refine ⟨fun v => rfl, rfl, rfl, fun env => rfl, fun env b => ?_⟩
  cases b <;> rfl

/-- C6 counterexample: after a successful startup, losing the listener
connection triggers zero reconnection attempts — main.py installs no
handler for connection loss, so the bridge never reconnects. -/
theorem conn_lost_no_reconnect_attempted :
    (bridgeStep (lifespanStartup true) BridgeEvent.connLost).reconnectAttempts
      = 0 ∧
    (bridgeStep (lifespanStartup true) BridgeEvent.connLost).listenerConnected
      = false := by
  decide

/-- C6 amended: when the listener connection is lost after startup, the
bridge makes no reconnection attempt (push updates stay unavailable), but
the process does not terminate, and direct reads and increments — which go
through the separate SQLAlchemy engine — behave exactly as before. -/
theorem conn_lost_keeps_process_reads_and_increments
    (st : AppState) (env : ReadEnv) :
    bridgeStep st BridgeEvent.connLost = { st with listenerConnected := false } ∧
    (bridgeStep st BridgeEvent.connLost).processAlive = st.processAlive ∧
    (bridgeStep st BridgeEvent.connLost).reconnectAttempts
      = st.reconnectAttempts ∧
    (∀ c : Bool,
      (bridgeStep (lifespanStartup c) BridgeEvent.connLost).processAlive
        = true) ∧
    getCountEndpoint (bridgeStep st BridgeEvent.connLost).engineUp
        (bridgeStep st BridgeEvent.connLost).sessionUp env =
      getCountEndpoint st.engineUp st.sessionUp env ∧
    (∀ execs retries,
      incrementAndGetCount (bridgeStep st BridgeEvent.connLost).sessionUp
          execs retries =
        incrementAndGetCount st.sessionUp execs retries) := by
  exact ⟨rfl, rfl, rfl, fun c => rfl, rfl, fun execs retries => rfl⟩

/-- C7 counterexample: a WebSocket connect while the counter row is absent
sends no initial message at all — in particular it does not send 0 (the
absent-as-zero behaviour belongs to the SSE endpoint, main.py line 198,
not to `websocket_endpoint`). -/
theorem ws_absent_value_sends_nothing :
    (websocketConnect [] 1 ReadEnv.noRow).2 = [] ∧
    (websocketConnect [] 1 ReadEnv.noRow).2 ≠ [0] := by
  constructor
  · rfl
  · intro h
    simp [websocketConnect, getCurrentCount] at h

/-- C7 amended: on every WebSocket connection the sink is registered first
and the snapshot read happens after registration; when the current value is
available exactly one initial message carrying it is sent, and when the
value is unavailable or absent no initial message is sent, so the client's
first received value is then the first subsequent broadcast. -/
theorem ws_register_then_single_snapshot
    (clients : Registry) (ws : Nat) (v : Int) :
    websocketConnect clients ws (ReadEnv.row v) = (Registry.add clients ws, [v]) ∧
    websocketConnect clients ws ReadEnv.noRow = (Registry.add clients ws, []) ∧
    websocketConnect clients ws ReadEnv.raises = (Registry.add clients ws, []) ∧
    websocketTrace (ReadEnv.row v) =
      [WsAction.accept, WsAction.register, WsAction.readSnapshot,
        WsAction.send v] ∧
    websocketTrace ReadEnv.noRow =
      [WsAction.accept, WsAction.register, WsAction.readSnapshot] := by
  exact ⟨rfl, rfl, rfl, rfl, rfl⟩

/-- C1 counterexample: notifications E1 (count 10) then E2 (count 20) each
get their own `asyncio.create_task` handler; under the schedule that lets
E2's task deliver at its first suspension point before E1's task resumes,
the single registered sink receives E2's value 20 before E1's value 10. -/
theorem interleaved_notify_tasks_reorder :
    receivedValues (runSchedule (spawnTasks [1] [10, 20]) [1, 0]) 1
      = [20, 10] ∧
    ([20, 10] : List Int) ≠ [10, 20] := by
  decide

/-- Helper: a run of steps all scheduled on task 0 delivers task 0's
pending snapshot in order, leaving the other task untouched. -/
theorem foldl_sched_task0 (c1 : Int) (t2 : NotifyTask) :
    ∀ (p : List Nat) (log : List (Nat × Int)),
      List.foldl (fun st i => schedStep st.1 st.2 i)
          ([⟨c1, p⟩, t2], log) (List.replicate p.length 0) =
        ([⟨c1, []⟩, t2], log ++ p.map (fun s => (s, c1))) := by
  intro p
  induction p with
  | nil => intro log; simp
  | cons x xs ih =>
    intro log
    rw [List.length_cons, List.replicate_succ, List.foldl_cons]
    have hstep : schedStep [⟨c1, x :: xs⟩, t2] log 0 =
        ([⟨c1, xs⟩, t2], log ++ [(x, c1)]) := rfl
    rw [hstep, ih (log ++ [(x, c1)])]
    simp

/-- Helper: a run of steps all scheduled on task 1 delivers task 1's
pending snapshot in order, leaving task 0 untouched. -/
theorem foldl_sched_task1 (t1 : NotifyTask) (c2 : Int) :
    ∀ (p : List Nat) (log : List (Nat × Int)),
      List.foldl (fun st i => schedStep st.1 st.2 i)
          ([t1, ⟨c2, p⟩], log) (List.replicate p.length 1) =
        ([t1, ⟨c2, []⟩], log ++ p.map (fun s => (s, c2))) := by
  intro p
  induction p with
  | nil => intro log; simp
  | cons x xs ih =>
    intro log
    rw [List.length_cons, List.replicate_succ, List.foldl_cons]
    have hstep : schedStep [t1, ⟨c2, x :: xs⟩] log 1 =
        ([t1, ⟨c2, xs⟩], log ++ [(x, c2)]) := rfl
    rw [hstep, ih (log ++ [(x, c2)])]
    simp

/-- C1 amended: `_pg_notify_handler` spawns one handler task per
notification, so ordering across notifications is not enforced (see the
counterexample); only under the serialized schedule — E1's handler runs to
completion before E2's starts — is the delivery log all of E1's deliveries
over the snapshot followed by all of E2's, so that every sink receives
E1's value before E2's. -/
theorem serial_handler_schedule_is_ordered (snapshot : List Nat) (c1 c2 : Int) :
    runSchedule (spawnTasks snapshot [c1, c2]) (serialSchedule snapshot.length) =
      snapshot.map (fun s => (s, c1)) ++ snapshot.map (fun s => (s, c2)) := by
  unfold runSchedule serialSchedule spawnTasks
  rw [List.map_cons, List.map_cons, List.map_nil, List.foldl_append,
    foldl_sched_task0, foldl_sched_task1]
  simp
